import Mathlib

/-!
A shallow embedding of the capsule keyboard remapper (src/capsule.c, the
Linux/libevdev revision) together with proofs of its key behavioural
properties: the Caps Lock dual-function state machine in handle_event, the
action-table lookup, the killswitch and exit paths of run_event_loop and
main, and the keyboard auto-detection scan find_keyboard_device.
-/

set_option autoImplicit false

namespace Capsule

/-! ## Event-type and key-code constants (linux/input-event-codes.h values) -/

def EV_SYN : Nat := 0
def EV_KEY : Nat := 1

def KEY_7 : Nat := 8
def KEY_8 : Nat := 9
def KEY_9 : Nat := 10
def KEY_0 : Nat := 11
def KEY_Y : Nat := 21
def KEY_U : Nat := 22
def KEY_I : Nat := 23
def KEY_O : Nat := 24
def KEY_P : Nat := 25
def KEY_LEFTCTRL : Nat := 29
def KEY_D : Nat := 32
def KEY_H : Nat := 35
def KEY_J : Nat := 36
def KEY_K : Nat := 37
def KEY_L : Nat := 38
def KEY_N : Nat := 49
def KEY_CAPSLOCK : Nat := 58
def KEY_RIGHTCTRL : Nat := 97
def KEY_RIGHTALT : Nat := 100
def KEY_UP : Nat := 103
def KEY_PAGEUP : Nat := 104
def KEY_LEFT : Nat := 105
def KEY_RIGHT : Nat := 106
def KEY_DOWN : Nat := 108
def KEY_PAGEDOWN : Nat := 109
def KEY_DELETE : Nat := 111

/-! ## Action table (capsule.c lines 23-52) -/

/-- The output half of an action-table entry: the substitute key code plus
modifier flags, mirroring the anonymous struct inside action_table. -/
structure ActionOutput where
  code : Nat
  left_alt : Bool := false
  right_alt : Bool := false
  left_ctrl : Bool := false
deriving Repr, DecidableEq

/-- One action-table entry: if Caps Lock is pressed, a physical key with
this code is translated into the given output combo. -/
structure ActionEntry where
  code : Nat
  output : ActionOutput
deriving Repr, DecidableEq

/-- The static action_table of capsule.c: Vim-style HJKL arrows, N/P paging,
D delete, and right-Alt bracket combos for Y, O, U, I. -/
def action_table : List ActionEntry :=
  [ ⟨KEY_H, { code := KEY_LEFT }⟩,
    ⟨KEY_J, { code := KEY_DOWN }⟩,
    ⟨KEY_K, { code := KEY_UP }⟩,
    ⟨KEY_L, { code := KEY_RIGHT }⟩,
    ⟨KEY_P, { code := KEY_PAGEUP }⟩,
    ⟨KEY_N, { code := KEY_PAGEDOWN }⟩,
    ⟨KEY_D, { code := KEY_DELETE }⟩,
    ⟨KEY_Y, { code := KEY_7, right_alt := true }⟩,
    ⟨KEY_O, { code := KEY_0, right_alt := true }⟩,
    ⟨KEY_U, { code := KEY_8, right_alt := true }⟩,
    ⟨KEY_I, { code := KEY_9, right_alt := true }⟩ ]

/-- The first-match scan of the for loop in handle_event (lines 153-156):
walk the table in order carrying the running index, return the first entry
whose trigger code equals the event code together with its index. -/
def lookup_action : List ActionEntry → Nat → Nat → Option (Nat × ActionEntry)
  | [], _, _ => none
  | e :: rest, i, c => if e.code = c then some (i, e) else lookup_action rest (i + 1) c

/-! ## Translation state and events -/

/-- The mutable kbd_state of capsule.c (lines 54-59).  The C array
action_table_activated[11] is embedded as a function from index to Bool
(all indices used by the code are in-bounds table positions). -/
structure KbdState where
  caps_lock_pressed : Bool
  key_pressed_while_caps_lock_pressed : Bool
  action_table_activated : Nat → Bool

/-- The zero-initialised static kbd_state at program start. -/
def init_kbd_state : KbdState :=
  { caps_lock_pressed := false
    key_pressed_while_caps_lock_pressed := false
    action_table_activated := fun _ => false }

/-- A struct input_event as consumed and produced by handle_event:
type, code, and signed value (0 release, 1 press, >1 repeat). -/
structure InputEvent where
  type : Nat
  code : Nat
  value : Int
deriving Repr, DecidableEq

/-- The event written by line 149 of capsule.c as the synchronization
barrier between the synthesized Caps Lock press and the forwarded release:
literally write_event_to_uinput(uinput_dev, EV_KEY, EV_SYN, 0). -/
def sync_barrier_event : InputEvent := ⟨EV_KEY, EV_SYN, 0⟩

/-! ## handle_event (capsule.c lines 126-195) -/

/-- The per-event translation state machine handle_event: takes the current
kbd_state and one input event, returns the updated state and the list of
events written to the uinput device, in order.  Forwarding the original
event is modelled as outputting the event itself. -/
def handle_event (st : KbdState) (ev : InputEvent) : KbdState × List InputEvent :=
  if ev.type ≠ EV_KEY then
    (st, [ev])
  else if ev.code = KEY_CAPSLOCK then
    if 1 < ev.value then
      (st, [])
    else if ev.value = 1 then
      ({ st with caps_lock_pressed := true
                 key_pressed_while_caps_lock_pressed := false }, [])
    else
      let st1 := { st with caps_lock_pressed := false }
      if st1.key_pressed_while_caps_lock_pressed then
        (st1, [])
      else
        (st1, [⟨EV_KEY, KEY_CAPSLOCK, 1⟩, sync_barrier_event, ev])
  else
    match lookup_action action_table 0 ev.code with
    | some (i, entry) =>
        if ev.value = 1 ∧ st.caps_lock_pressed = false then
          (st, [ev])
        else if ev.value ≠ 1 ∧ st.action_table_activated i = false then
          (st, [ev])
        else
          let altEvents : List InputEvent :=
            if entry.output.right_alt = true ∧ ev.value ≤ 1 then
              [⟨EV_KEY, KEY_RIGHTALT, ev.value⟩]
            else []
          let ctrlEvents : List InputEvent :=
            if entry.output.left_ctrl = true ∧ ev.value ≤ 1 then
              [⟨EV_KEY, KEY_LEFTCTRL, ev.value⟩]
            else []
          let outs := altEvents ++ ctrlEvents ++ [⟨EV_KEY, entry.output.code, ev.value⟩]
          if ev.value ≤ 1 then
            let activated : Bool := decide (ev.value = 1) && st.caps_lock_pressed
            ({ st with
                action_table_activated := Function.update st.action_table_activated i activated
                key_pressed_while_caps_lock_pressed :=
                  st.key_pressed_while_caps_lock_pressed || activated }, outs)
          else
            (st, outs)
    | none =>
        if st.caps_lock_pressed then
          ({ st with key_pressed_while_caps_lock_pressed :=
              st.key_pressed_while_caps_lock_pressed || decide (ev.value = 1) }, [])
        else
          (st, [ev])

/-- Run handle_event over a whole input sequence, threading the state and
concatenating the written outputs in order. -/
def process_events : KbdState → List InputEvent → KbdState × List InputEvent
  | st, [] => (st, [])
  | st, ev :: rest =>
    let r1 := handle_event st ev
    let r2 := process_events r1.1 rest
    (r2.1, r1.2 ++ r2.2)

/-! ## Killswitch and event loop (capsule.c lines 197-254) -/

/-- is_killswitch_active (lines 197-201): the live physical key state of the
device, read via libevdev_get_event_value, is modelled as a function from
key code to current value; the killswitch is left Control and right Control
simultaneously reporting a positive value. -/
def is_killswitch_active (phys : Nat → Int) : Bool :=
  decide (0 < phys KEY_LEFTCTRL) && decide (0 < phys KEY_RIGHTCTRL)

/-- Result of one libevdev_next_event call inside the drain loop of
run_event_loop: a successful read (rc = 0), the device vanishing
(rc = -ENODEV), no more buffered events (rc = -EAGAIN), or any other
error code. -/
inductive ReadResult where
  | success (ev : InputEvent)
  | deviceGone
  | wouldBlock
  | otherError
deriving Repr, DecidableEq

/-- Outcome of processing one read result in run_event_loop: jump to the
done label because the killswitch fired, jump to the done label because the
device is gone, or stay in the loop with an updated translation state and
the events written during this step. -/
inductive LoopOutcome where
  | exitKillswitch
  | exitDeviceGone
  | continueLoop (st : KbdState) (out : List InputEvent)

/-- One iteration of the inner drain loop of run_event_loop
(lines 222-247): on a successful read the killswitch is evaluated against
the live physical key state first and, when active, the loop exits before
handle_event runs; otherwise the event is handled.  A -ENODEV read exits
the loop (hot-plugging unsupported); -EAGAIN and other errors keep the
loop running without touching the translation state. -/
def loop_step (phys : Nat → Int) (st : KbdState) : ReadResult → LoopOutcome
  | ReadResult.success ev =>
      if is_killswitch_active phys then
        LoopOutcome.exitKillswitch
      else
        let r := handle_event st ev
        LoopOutcome.continueLoop r.1 r.2
  | ReadResult.deviceGone => LoopOutcome.exitDeviceGone
  | ReadResult.wouldBlock => LoopOutcome.continueLoop st []
  | ReadResult.otherError => LoopOutcome.continueLoop st []

/-- The OS resources owned by the single keyboard session of
run_event_loop: the exclusive grab on the physical device and the uinput
virtual output device. -/
structure SessionResources where
  grabbed : Bool
  uinput_alive : Bool
deriving Repr, DecidableEq

/-- Resource state after the setup at the top of run_event_loop succeeded:
uinput device created (line 207) and the physical device grabbed
(line 216). -/
def session_after_setup : SessionResources := { grabbed := true, uinput_alive := true }

/-- The done label of run_event_loop (lines 250-252): ungrab the physical
device and destroy the uinput device. -/
def release_session (_r : SessionResources) : SessionResources :=
  { grabbed := false, uinput_alive := false }

/-- The ways run_event_loop can return: uinput creation failed at the top
(early return false, nothing acquired yet), the killswitch fired (goto
done with rc = 0, so it returns true), the device vanished (goto done with
rc = -ENODEV, returns false), or poll stopped reporting readiness (the
while loop ends with rc either -1 or -EAGAIN, returns false). -/
inductive LoopExit where
  | uinputCreateFailed
  | killswitch
  | deviceGone
  | pollFailed
deriving Repr, DecidableEq

/-- The diagnostic messages the program prints on its exit paths, one
constructor per distinct ERROR call in capsule.c. -/
inductive Diag where
  | mustRunAsRoot
  | noValidKeyboardDevice
  | uinputCreateFailed
  | killswitchDetected
  | hotplugNotImplemented
  | couldNotRelayKeypresses
deriving Repr, DecidableEq

/-- run_event_loop (lines 203-254) summarised at its exit: the returned
Bool (rc == LIBEVDEV_READ_STATUS_SUCCESS at the done label), the final
state of the session resources, and the diagnostics it printed. -/
def run_event_loop_model : LoopExit → Bool × SessionResources × List Diag
  | LoopExit.uinputCreateFailed =>
      (false, { grabbed := false, uinput_alive := false }, [Diag.uinputCreateFailed])
  | LoopExit.killswitch =>
      (true, release_session session_after_setup, [Diag.killswitchDetected])
  | LoopExit.deviceGone =>
      (false, release_session session_after_setup, [Diag.hotplugNotImplemented])
  | LoopExit.pollFailed =>
      (false, release_session session_after_setup, [])

/-- The ways main (lines 261-293) can run to completion: refuse to start
without root, find no valid keyboard device, or run the event loop until
one of its exits. -/
inductive MainScenario where
  | notRoot
  | noValidDevice
  | loopRun (e : LoopExit)
deriving Repr, DecidableEq

/-- main summarised at its exit: the returned status and every diagnostic
printed on the way (by main itself or by run_event_loop).  main prints its
own error exactly when run_event_loop returned false, and always returns
-1 (line 292). -/
def main_model : MainScenario → Int × List Diag
  | MainScenario.notRoot => (-1, [Diag.mustRunAsRoot])
  | MainScenario.noValidDevice => (-1, [Diag.noValidKeyboardDevice])
  | MainScenario.loopRun e =>
      let r := run_event_loop_model e
      (-1, r.2.2 ++ if r.1 = true then [] else [Diag.couldNotRelayKeypresses])

/-! ## Keyboard auto-detection (capsule.c lines 80-112) -/

/-- What the environment reports about /dev/input/eventN: whether the path
exists (access(path, F_OK) == 0), whether open_device succeeds on it, and
the capabilities libevdev reports for it. -/
structure DeviceInfo where
  present : Bool
  openable : Bool
  has_ev_key : Bool
  has_ev_led : Bool
  has_capslock : Bool
deriving Repr, DecidableEq

/-- is_keyboard_event_device (lines 80-85) on a successfully opened device:
it advertises EV_KEY, EV_LED when required, and the KEY_CAPSLOCK code.
The evdev non-null guard of the C function corresponds to the openable
check made by the callers in this model. -/
def is_keyboard_event_device (d : DeviceInfo) (require_led : Bool) : Bool :=
  d.has_ev_key && (!require_led || d.has_ev_led) && d.has_capslock

/-- A device find_keyboard_device accepts: openable, and a keyboard event
device with the LED requirement switched on. -/
def suitable_device (d : DeviceInfo) : Prop :=
  d.openable = true ∧ is_keyboard_event_device d true = true

instance (d : DeviceInfo) : Decidable (suitable_device d) := by
  unfold suitable_device; infer_instance

/-- The scan loop of find_keyboard_device (lines 89-109), starting at index
i with the given number of remaining iterations: a missing path breaks the
loop (returning no device), an unopenable or unsuitable device is skipped,
and the first suitable device is returned. -/
def find_loop (env : Nat → DeviceInfo) : Nat → Nat → Option Nat
  | _, 0 => none
  | i, fuel + 1 =>
      if (env i).present = true then
        if suitable_device (env i) then some i
        else find_loop env (i + 1) fuel
      else none

/-- find_keyboard_device (lines 87-112): scan /dev/input/event0 through
/dev/input/event999 in ascending order (the for loop runs i from 0 to 999
inclusive) and return the index of the device found, if any. -/
def find_keyboard_device (env : Nat → DeviceInfo) : Option Nat :=
  find_loop env 0 1000

/-! ## Helper lemmas -/

/-- A successful first-match lookup returns an entry whose trigger code is
the searched code and which belongs to the table. -/
theorem lookup_action_mem (l : List ActionEntry) (k c i : Nat) (e : ActionEntry)
    (h : lookup_action l k c = some (i, e)) : e.code = c ∧ e ∈ l := by
  induction l generalizing k with
  | nil => simp [lookup_action] at h
  | cons a rest ih =>
      rw [lookup_action] at h
      by_cases hac : a.code = c
      · rw [if_pos hac] at h
        obtain ⟨-, rfl⟩ : k = i ∧ a = e := by simpa using h
        exact ⟨hac, List.mem_cons_self a rest⟩
      · rw [if_neg hac] at h
        obtain ⟨h1, h2⟩ := ih (k + 1) h
        exact ⟨h1, List.mem_cons_of_mem a h2⟩

/-- No trigger code in the action table is the Caps Lock code. -/
theorem action_table_no_capslock : ∀ e ∈ action_table, e.code ≠ KEY_CAPSLOCK := by decide

/-- Characterization of the scan loop: starting at index s with the given
fuel, it returns index i exactly when i lies in the scanned window, every
path up to and including i exists, device i is suitable, and no earlier
scanned device is suitable. -/
theorem find_loop_some_iff (env : Nat → DeviceInfo) (fuel : Nat) :
    ∀ s i : Nat,
      (find_loop env s fuel = some i ↔
        s ≤ i ∧ i < s + fuel ∧ (∀ j, s ≤ j → j ≤ i → (env j).present = true) ∧
        suitable_device (env i) ∧
        ∀ j, s ≤ j → j < i → ¬ suitable_device (env j)) := by
  induction fuel with
  | zero =>
      intro s i
      constructor
      · intro h
        simp [find_loop] at h
      · rintro ⟨h1, h2, -⟩
        omega
  | succ fuel ih =>
      intro s i
      by_cases hp : (env s).present = true
      · by_cases hs : suitable_device (env s)
        · rw [find_loop, if_pos hp, if_pos hs]
          constructor
          · intro h
            obtain rfl : s = i := by simpa using h
            refine ⟨le_refl s, by omega, ?_, hs, fun j h1 h2 => by omega⟩
            intro j h1 h2
            obtain rfl : j = s := by omega
            exact hp
          · rintro ⟨h1, h2, h3, h4, h5⟩
            obtain rfl : i = s := by
              by_contra hne
              exact h5 s (le_refl s) (by omega) hs
            rfl
        · rw [find_loop, if_pos hp, if_neg hs, ih (s + 1) i]
          constructor
          · rintro ⟨h1, h2, h3, h4, h5⟩
            refine ⟨by omega, by omega, ?_, h4, ?_⟩
            · intro j hj1 hj2
              rcases Nat.eq_or_lt_of_le hj1 with rfl | hlt
              · exact hp
              · exact h3 j (by omega) hj2
            · intro j hj1 hj2
              rcases Nat.eq_or_lt_of_le hj1 with rfl | hlt
              · exact hs
              · exact h5 j (by omega) hj2
          · rintro ⟨h1, h2, h3, h4, h5⟩
            have hsi : s ≠ i := fun he => hs (he ▸ h4)
            exact ⟨by omega, by omega, fun j hj1 hj2 => h3 j (by omega) hj2,
              h4, fun j hj1 hj2 => h5 j (by omega) hj2⟩
      · rw [find_loop, if_neg hp]
        constructor
        · intro h
          simp at h
        · rintro ⟨h1, h2, h3, -⟩
          exact absurd (h3 s (le_refl s) h1) hp

/-! ## Claim theorems -/

/-- C10: keyboard auto-detection scans /dev/input/event0 through
/dev/input/event999 in ascending order and returns index i exactly when
every path up to number i exists (so the scan never skips past a gap in the
numbering), device i is openable and advertises key events, LED events and
the Caps Lock code, and no earlier device is both openable and suitable;
in addition, a device beyond a missing path is never returned. -/
theorem find_keyboard_device_characterization (env : Nat → DeviceInfo) (i : Nat) :
    (find_keyboard_device env = some i ↔
      i ≤ 999 ∧ (∀ j, j ≤ i → (env j).present = true) ∧
      (env i).openable = true ∧ is_keyboard_event_device (env i) true = true ∧
      ∀ j, j < i →
        ¬ ((env j).openable = true ∧ is_keyboard_event_device (env j) true = true)) ∧
    (∀ g, g < i → (env g).present = false → find_keyboard_device env ≠ some i) := by
  constructor
  · rw [find_keyboard_device, find_loop_some_iff env 1000 0 i]
    constructor
    · rintro ⟨-, h2, h3, h4, h5⟩
      exact ⟨by omega, fun j hj => h3 j (Nat.zero_le j) hj, h4.1, h4.2,
        fun j hj => h5 j (Nat.zero_le j) hj⟩
    · rintro ⟨h1, h2, h3, h4, h5⟩
      exact ⟨Nat.zero_le i, by omega, fun j _ hj => h2 j hj, ⟨h3, h4⟩,
        fun j _ hj => h5 j hj⟩
  · intro g hg hgabs hfind
    rw [find_keyboard_device, find_loop_some_iff env 1000 0 i] at hfind
    have := hfind.2.2.1 g (Nat.zero_le g) (by omega)
    rw [this] at hgabs
    exact Bool.true_eq_false.mp hgabs

/-- Witness for C10 at a concrete environment: device 0 exists but lacks the
LED capability, device 1 exists but cannot be opened, device 2 is suitable,
device 3 does not exist; the scan returns device 2. -/
theorem find_keyboard_device_characterization_witness :
    (find_keyboard_device
        (fun n =>
          if n = 0 then ⟨true, true, true, false, true⟩
          else if n = 1 then ⟨true, false, true, true, true⟩
          else if n = 2 then ⟨true, true, true, true, true⟩
          else ⟨false, false, false, false, false⟩) = some 2 ↔
      2 ≤ 999 ∧
      (∀ j, j ≤ 2 →
        ((fun n =>
          if n = 0 then (⟨true, true, true, false, true⟩ : DeviceInfo)
          else if n = 1 then ⟨true, false, true, true, true⟩
          else if n = 2 then ⟨true, true, true, true, true⟩
          else ⟨false, false, false, false, false⟩) j).present = true) ∧
      ((fun n =>
          if n = 0 then (⟨true, true, true, false, true⟩ : DeviceInfo)
          else if n = 1 then ⟨true, false, true, true, true⟩
          else if n = 2 then ⟨true, true, true, true, true⟩
          else ⟨false, false, false, false, false⟩) 2).openable = true ∧
      is_keyboard_event_device
        ((fun n =>
          if n = 0 then (⟨true, true, true, false, true⟩ : DeviceInfo)
          else if n = 1 then ⟨true, false, true, true, true⟩
          else if n = 2 then ⟨true, true, true, true, true⟩
          else ⟨false, false, false, false, false⟩) 2) true = true ∧
      ∀ j, j < 2 →
        ¬ (((fun n =>
          if n = 0 then (⟨true, true, true, false, true⟩ : DeviceInfo)
          else if n = 1 then ⟨true, false, true, true, true⟩
          else if n = 2 then ⟨true, true, true, true, true⟩
          else ⟨false, false, false, false, false⟩) j).openable = true ∧
          is_keyboard_event_device
            ((fun n =>
              if n = 0 then (⟨true, true, true, false, true⟩ : DeviceInfo)
              else if n = 1 then ⟨true, false, true, true, true⟩
              else if n = 2 then ⟨true, true, true, true, true⟩
              else ⟨false, false, false, false, false⟩) j) true = true)) ∧
    (∀ g, g < 2 →
      ((fun n =>
          if n = 0 then (⟨true, true, true, false, true⟩ : DeviceInfo)
          else if n = 1 then ⟨true, false, true, true, true⟩
          else if n = 2 then ⟨true, true, true, true, true⟩
          else ⟨false, false, false, false, false⟩) g).present = false →
      find_keyboard_device
        (fun n =>
          if n = 0 then ⟨true, true, true, false, true⟩
          else if n = 1 then ⟨true, false, true, true, true⟩
          else if n = 2 then ⟨true, true, true, true, true⟩
          else ⟨false, false, false, false, false⟩) ≠ some 2) :=
  find_keyboard_device_characterization
    (fun n =>
      if n = 0 then ⟨true, true, true, false, true⟩
      else if n = 1 then ⟨true, false, true, true, true⟩
      else if n = 2 then ⟨true, true, true, true, true⟩
      else ⟨false, false, false, false, false⟩) 2

/-- C1: from IDLE with a clean state, the input sequence CapsLock-down then
CapsLock-up with no intervening key produces exactly a synthesized press of
the lock-equivalent key (KEY_CAPSLOCK in this build), then the
synchronization barrier written at line 149, then the forwarded release of
the lock-equivalent key, and nothing else: the physical press itself is
swallowed and the toggle is deferred to the release. -/
theorem capslock_tap_emits_press_sync_release (st : KbdState)
    (_hidle : st.caps_lock_pressed = false)
    (_hclean : st.key_pressed_while_caps_lock_pressed = false) :
    (process_events st [⟨EV_KEY, KEY_CAPSLOCK, 1⟩, ⟨EV_KEY, KEY_CAPSLOCK, 0⟩]).2 =
      [⟨EV_KEY, KEY_CAPSLOCK, 1⟩, sync_barrier_event, ⟨EV_KEY, KEY_CAPSLOCK, 0⟩] := by
  simp [process_events, handle_event]

/-- Witness for C1 at the zero-initialised start state. -/
theorem capslock_tap_emits_press_sync_release_witness :
    init_kbd_state.caps_lock_pressed = false ∧
    init_kbd_state.key_pressed_while_caps_lock_pressed = false ∧
    (process_events init_kbd_state
        [⟨EV_KEY, KEY_CAPSLOCK, 1⟩, ⟨EV_KEY, KEY_CAPSLOCK, 0⟩]).2 =
      [⟨EV_KEY, KEY_CAPSLOCK, 1⟩, sync_barrier_event, ⟨EV_KEY, KEY_CAPSLOCK, 0⟩] :=
  ⟨rfl, rfl, capslock_tap_emits_press_sync_release init_kbd_state rfl rfl⟩

/-- C2: from IDLE, the input sequence CapsLock-down, H-down, H-up,
CapsLock-up with the default action table produces exactly Left-down then
Left-up, and no press or release of the lock-equivalent key: the dirty flag
set by the mapped press suppresses the plain lock toggle on release. -/
theorem caps_hold_h_tap_emits_left_only (st : KbdState)
    (_hidle : st.caps_lock_pressed = false) :
    (process_events st
        [⟨EV_KEY, KEY_CAPSLOCK, 1⟩, ⟨EV_KEY, KEY_H, 1⟩, ⟨EV_KEY, KEY_H, 0⟩,
         ⟨EV_KEY, KEY_CAPSLOCK, 0⟩]).2 =
      [⟨EV_KEY, KEY_LEFT, 1⟩, ⟨EV_KEY, KEY_LEFT, 0⟩] := by
  simp [process_events, handle_event, lookup_action, action_table,
    KEY_H, KEY_CAPSLOCK, EV_KEY, Function.update_same]

/-- Witness for C2 at the zero-initialised start state. -/
theorem caps_hold_h_tap_emits_left_only_witness :
    init_kbd_state.caps_lock_pressed = false ∧
    (process_events init_kbd_state
        [⟨EV_KEY, KEY_CAPSLOCK, 1⟩, ⟨EV_KEY, KEY_H, 1⟩, ⟨EV_KEY, KEY_H, 0⟩,
         ⟨EV_KEY, KEY_CAPSLOCK, 0⟩]).2 =
      [⟨EV_KEY, KEY_LEFT, 1⟩, ⟨EV_KEY, KEY_LEFT, 0⟩] :=
  ⟨rfl, caps_hold_h_tap_emits_left_only init_kbd_state rfl⟩

/-- C9: a key-repeat event (value above 1) of any key code leaves the whole
translation state unchanged: caps_lock_pressed,
key_pressed_while_caps_lock_pressed and every action_table_activated flag
keep their values across handle_event. -/
theorem key_repeat_preserves_state (st : KbdState) (ev : InputEvent)
    (htype : ev.type = EV_KEY) (hrep : 1 < ev.value) :
    (handle_event st ev).1 = st := by
  have hv1 : ¬ ev.value = 1 := by omega
  have hv2 : ¬ ev.value ≤ 1 := by omega
  by_cases hcl : ev.code = KEY_CAPSLOCK
  · simp [handle_event, htype, hcl, hrep]
  · cases hl : lookup_action action_table 0 ev.code with
    | none =>
        obtain ⟨a, b, f⟩ := st
        simp [handle_event, htype, hcl, hl, hv1]
        split <;> rfl
    | some p =>
        obtain ⟨i, entry⟩ := p
        by_cases harm : st.action_table_activated i = true
        · simp [handle_event, htype, hcl, hl, hv1, hv2, harm]
        · simp [handle_event, htype, hcl, hl, hv1, hv2, harm]

/-- C5: for the action-table entries that declare a modifier, namely the
right-Alt entries with triggers Y, O, U and I in the default table, a press
while Caps Lock is held emits right-Alt-down then the mapped code down, in
that order, and the matching release emits right-Alt-up then the mapped
code up, in that order. -/
theorem rightalt_entries_emit_modifier_then_code (c : Nat)
    (hc : c = KEY_Y ∨ c = KEY_O ∨ c = KEY_U ∨ c = KEY_I)
    (st : KbdState) (hcaps : st.caps_lock_pressed = true) :
    ∃ i entry, lookup_action action_table 0 c = some (i, entry) ∧
      entry.output.right_alt = true ∧
      (process_events st [⟨EV_KEY, c, 1⟩, ⟨EV_KEY, c, 0⟩]).2 =
        [⟨EV_KEY, KEY_RIGHTALT, 1⟩, ⟨EV_KEY, entry.output.code, 1⟩,
         ⟨EV_KEY, KEY_RIGHTALT, 0⟩, ⟨EV_KEY, entry.output.code, 0⟩] := by
  rcases hc with rfl | rfl | rfl | rfl
  · exact ⟨7, ⟨KEY_Y, { code := KEY_7, right_alt := true }⟩, by decide, rfl, by
      simp [process_events, handle_event, lookup_action, action_table, hcaps,
        KEY_Y, KEY_7, KEY_H, KEY_J, KEY_K, KEY_L, KEY_P, KEY_N, KEY_D,
        KEY_CAPSLOCK, EV_KEY, Function.update_same]⟩
  · exact ⟨8, ⟨KEY_O, { code := KEY_0, right_alt := true }⟩, by decide, rfl, by
      simp [process_events, handle_event, lookup_action, action_table, hcaps,
        KEY_O, KEY_0, KEY_Y, KEY_H, KEY_J, KEY_K, KEY_L, KEY_P, KEY_N, KEY_D,
        KEY_CAPSLOCK, EV_KEY, Function.update_same]⟩
  · exact ⟨9, ⟨KEY_U, { code := KEY_8, right_alt := true }⟩, by decide, rfl, by
      simp [process_events, handle_event, lookup_action, action_table, hcaps,
        KEY_U, KEY_8, KEY_Y, KEY_O, KEY_H, KEY_J, KEY_K, KEY_L, KEY_P, KEY_N,
        KEY_D, KEY_CAPSLOCK, EV_KEY, Function.update_same]⟩
  · exact ⟨10, ⟨KEY_I, { code := KEY_9, right_alt := true }⟩, by decide, rfl, by
      simp [process_events, handle_event, lookup_action, action_table, hcaps,
        KEY_I, KEY_9, KEY_Y, KEY_O, KEY_U, KEY_H, KEY_J, KEY_K, KEY_L, KEY_P,
        KEY_N, KEY_D, KEY_CAPSLOCK, EV_KEY, Function.update_same]⟩

/-- Witness for C5: trigger Y pressed and released while Caps Lock is held
at a state whose caps flag is set. -/
theorem rightalt_entries_emit_modifier_then_code_witness :
    (KEY_Y = KEY_Y ∨ KEY_Y = KEY_O ∨ KEY_Y = KEY_U ∨ KEY_Y = KEY_I) ∧
    (KbdState.mk true false fun _ => false).caps_lock_pressed = true ∧
    ∃ i entry, lookup_action action_table 0 KEY_Y = some (i, entry) ∧
      entry.output.right_alt = true ∧
      (process_events (KbdState.mk true false fun _ => false)
          [⟨EV_KEY, KEY_Y, 1⟩, ⟨EV_KEY, KEY_Y, 0⟩]).2 =
        [⟨EV_KEY, KEY_RIGHTALT, 1⟩, ⟨EV_KEY, entry.output.code, 1⟩,
         ⟨EV_KEY, KEY_RIGHTALT, 0⟩, ⟨EV_KEY, entry.output.code, 0⟩] :=
  ⟨Or.inl rfl, rfl,
    rightalt_entries_emit_modifier_then_code KEY_Y (Or.inl rfl)
      (KbdState.mk true false fun _ => false) rfl⟩

/-- C6: a key-repeat event (value above 1) of a physical key whose action is
currently armed outputs exactly one repeat event of the mapped output code;
the modifier is never re-emitted for repeats. -/
theorem armed_repeat_forwards_mapped_code_only (st : KbdState) (c i : Nat)
    (entry : ActionEntry) (v : Int)
    (hl : lookup_action action_table 0 c = some (i, entry))
    (harmed : st.action_table_activated i = true)
    (hrep : 1 < v) :
    (handle_event st ⟨EV_KEY, c, v⟩).2 = [⟨EV_KEY, entry.output.code, v⟩] := by
  obtain ⟨hcode, hmem⟩ := lookup_action_mem action_table 0 c i entry hl
  have hcl : c ≠ KEY_CAPSLOCK := hcode ▸ action_table_no_capslock entry hmem
  have hv1 : ¬ (v = 1) := by omega
  have hv2 : ¬ (v ≤ 1) := by omega
  simp [handle_event, hcl, hl, hv1, hv2, harmed]

/-- Witness for C6: a repeat of trigger Y while its action (table index 7)
is armed. -/
theorem armed_repeat_forwards_mapped_code_only_witness :
    lookup_action action_table 0 KEY_Y =
      some (7, ⟨KEY_Y, { code := KEY_7, right_alt := true }⟩) ∧
    (KbdState.mk true true fun j => decide (j = 7)).action_table_activated 7 = true ∧
    (1 : Int) < 2 ∧
    (handle_event (KbdState.mk true true fun j => decide (j = 7))
        ⟨EV_KEY, KEY_Y, 2⟩).2 = [⟨EV_KEY, KEY_7, 2⟩] :=
  ⟨by decide, by decide, by decide,
    armed_repeat_forwards_mapped_code_only (KbdState.mk true true fun j => decide (j = 7))
      KEY_Y 7 ⟨KEY_Y, { code := KEY_7, right_alt := true }⟩ 2
      (by decide) (by decide) (by decide)⟩

/-- C7: for a key code present in the action table, a press processed while
Caps Lock is not held is forwarded as the original physical event
unchanged, and a release whose action is not currently armed is forwarded
as the original physical event unchanged rather than mapped. -/
theorem mapped_key_forwarded_when_not_applicable (st : KbdState) (c i : Nat)
    (entry : ActionEntry)
    (hl : lookup_action action_table 0 c = some (i, entry)) :
    (st.caps_lock_pressed = false →
       handle_event st ⟨EV_KEY, c, 1⟩ = (st, [⟨EV_KEY, c, 1⟩])) ∧
    (st.action_table_activated i = false →
       handle_event st ⟨EV_KEY, c, 0⟩ = (st, [⟨EV_KEY, c, 0⟩])) := by
  obtain ⟨hcode, hmem⟩ := lookup_action_mem action_table 0 c i entry hl
  have hcl : c ≠ KEY_CAPSLOCK := hcode ▸ action_table_no_capslock entry hmem
  constructor
  · intro h
    simp [handle_event, hcl, hl, h]
  · intro h
    simp [handle_event, hcl, hl, h]

/-- Witness for C7: both forwarding cases for trigger H at the start state,
where Caps Lock is up and no action is armed. -/
theorem mapped_key_forwarded_when_not_applicable_witness :
    handle_event init_kbd_state ⟨EV_KEY, KEY_H, 1⟩ =
      (init_kbd_state, [⟨EV_KEY, KEY_H, 1⟩]) ∧
    handle_event init_kbd_state ⟨EV_KEY, KEY_H, 0⟩ =
      (init_kbd_state, [⟨EV_KEY, KEY_H, 0⟩]) :=
  ⟨(mapped_key_forwarded_when_not_applicable init_kbd_state KEY_H 0
      ⟨KEY_H, { code := KEY_LEFT }⟩ (by decide)).1 rfl,
   (mapped_key_forwarded_when_not_applicable init_kbd_state KEY_H 0
      ⟨KEY_H, { code := KEY_LEFT }⟩ (by decide)).2 rfl⟩

/-- Witness for C9: a repeat of the mapped key H at the start state. -/
theorem key_repeat_preserves_state_witness :
    (⟨EV_KEY, KEY_H, 2⟩ : InputEvent).type = EV_KEY ∧
    (1 : Int) < (⟨EV_KEY, KEY_H, 2⟩ : InputEvent).value ∧
    (handle_event init_kbd_state ⟨EV_KEY, KEY_H, 2⟩).1 = init_kbd_state :=
  ⟨rfl, by decide,
    key_repeat_preserves_state init_kbd_state ⟨EV_KEY, KEY_H, 2⟩ rfl (by decide)⟩

/-- C3 counterexample: at the concrete input where the read reports device
gone (-ENODEV), the loop step is exitDeviceGone rather than a continuation,
and main then terminates with status -1 after run_event_loop returns false;
the process does not keep running past a keyboard unplug. -/
theorem device_gone_counterexample :
    loop_step (fun _ => 0) init_kbd_state ReadResult.deviceGone =
      LoopOutcome.exitDeviceGone ∧
    loop_step (fun _ => 0) init_kbd_state ReadResult.deviceGone ≠
      LoopOutcome.continueLoop init_kbd_state [] ∧
    (run_event_loop_model LoopExit.deviceGone).1 = false ∧
    (main_model (MainScenario.loopRun LoopExit.deviceGone)).1 = -1 :=
  ⟨rfl, fun h => by simp [loop_step] at h, rfl, rfl⟩

/-- C3 amended: when the tracked keyboard device disappears mid-read, the
event loop exits (hot-plugging is not implemented): the session resources
are released at the done label, the hot-plug diagnostic is printed,
run_event_loop returns false, and main terminates with status -1 after
printing its own diagnostic.  The program does not survive the keyboard
being unplugged. -/
theorem device_gone_stops_loop_and_process (phys : Nat → Int) (st : KbdState) :
    loop_step phys st ReadResult.deviceGone = LoopOutcome.exitDeviceGone ∧
    run_event_loop_model LoopExit.deviceGone =
      (false, { grabbed := false, uinput_alive := false },
        [Diag.hotplugNotImplemented]) ∧
    main_model (MainScenario.loopRun LoopExit.deviceGone) =
      (-1, [Diag.hotplugNotImplemented, Diag.couldNotRelayKeypresses]) :=
  ⟨rfl, rfl, rfl⟩

/-- C4: when the physical device live key state reports left and right
Control simultaneously down, the loop step on any successfully read event
exits via the killswitch path without running handle_event, regardless of
the translation state (so regardless of any in-progress Caps Lock hold);
on that path the session resources (exclusive grab and virtual output
device) are released at the done label before main returns -1. -/
theorem killswitch_exits_and_releases_resources (phys : Nat → Int)
    (st : KbdState) (ev : InputEvent)
    (hks : is_killswitch_active phys = true) :
    loop_step phys st (ReadResult.success ev) = LoopOutcome.exitKillswitch ∧
    (run_event_loop_model LoopExit.killswitch).2.1 =
      { grabbed := false, uinput_alive := false } ∧
    (main_model (MainScenario.loopRun LoopExit.killswitch)).1 = -1 := by
  refine ⟨?_, rfl, rfl⟩
  simp [loop_step, hks]

/-- Witness for C4: both Control keys down in the live physical state while
a Caps Lock hold is in progress in the translation state. -/
theorem killswitch_exits_and_releases_resources_witness :
    is_killswitch_active
      (fun c => if c = KEY_LEFTCTRL ∨ c = KEY_RIGHTCTRL then 1 else 0) = true ∧
    loop_step (fun c => if c = KEY_LEFTCTRL ∨ c = KEY_RIGHTCTRL then 1 else 0)
        (KbdState.mk true false fun _ => false)
        (ReadResult.success ⟨EV_KEY, KEY_H, 1⟩) = LoopOutcome.exitKillswitch ∧
    (run_event_loop_model LoopExit.killswitch).2.1 =
      { grabbed := false, uinput_alive := false } ∧
    (main_model (MainScenario.loopRun LoopExit.killswitch)).1 = -1 :=
  ⟨by decide,
    (killswitch_exits_and_releases_resources
      (fun c => if c = KEY_LEFTCTRL ∨ c = KEY_RIGHTCTRL then 1 else 0)
      (KbdState.mk true false fun _ => false) ⟨EV_KEY, KEY_H, 1⟩ (by decide)).1,
    rfl, rfl⟩

/-- C8: every exit path of the process (not root, no valid keyboard device,
and every event-loop exit: uinput creation failure, killswitch, device
gone, poll failure) terminates with the negative status -1 and at least one
diagnostic message; no exit path reports success. -/
theorem every_exit_is_negative_with_diagnostic (s : MainScenario) :
    (main_model s).1 = -1 ∧ (main_model s).2 ≠ [] := by
  cases s with
  | notRoot => exact ⟨rfl, by simp [main_model]⟩
  | noValidDevice => exact ⟨rfl, by simp [main_model]⟩
  | loopRun e =>
      cases e <;> exact ⟨rfl, by simp [main_model, run_event_loop_model]⟩

end Capsule
